import Mathlib

/-
Shallow embedding of the vibesbot curation pipeline (src/index.js).

External effects (HTTP calls to the language model, the Spotify identity
endpoint and the Spotify catalog, plus the chat history read and the
Math.random draws) are modelled as explicit inputs: each fallible call is
an `Except` value supplied by the environment, and each random draw is a
rational field attached to the raw item that consumes it.  JavaScript
truthiness on strings (null / empty string are falsy) and the falsy-or
default (`x || d`) are modelled explicitly where the source relies on them.
-/

namespace Vibesbot

/-- Structured mood data returned by the language model, as consumed by the
rest of the pipeline (fields of the JSON object requested in the prompt). -/
structure VibesData where
  mood : String
  seed_genres : List String
  energy : ℚ
  valence : ℚ
  playlist_name : String
  playlist_description : String
deriving Repr, DecidableEq

/-- The fixed default profile returned when parsing the model output fails
(src/index.js lines 64-71). -/
def defaultVibes : VibesData :=
  { mood := "chill"
    seed_genres := ["pop"]
    energy := 1/2
    valence := 1/2
    playlist_name := "Good Vibes"
    playlist_description := "A playlist for any mood.\nGenerated just for you." }

/-- Model of the chat-completions HTTP response: `content?` is the value of
`response.data.choices[0].message.content` when that access chain succeeds,
and `none` when any step of it would throw (empty choices, missing fields). -/
structure ApiResponse where
  content? : Option String

/-- Drops trailing whitespace characters from a string (the `\s*` part of the
trailing fence regex in src/index.js lines 56 and 58). -/
def dropTrailingWs (s : String) : String :=
  String.mk ((s.data.reverse.dropWhile (fun c => c.isWhitespace)).reverse)

/-- Models `content.replace(/\s*` + three backticks + `$/, "")`: when the
string ends in a closing code fence, remove the fence and the whitespace
immediately before it. -/
def stripTrailingFence (s : String) : String :=
  if s.endsWith "```" then dropTrailingWs (s.dropRight 3) else s

/-- Models the markdown code-fence stripping of src/index.js lines 55-59:
remove a leading "```json" or "```" marker plus following whitespace, and a
trailing "```" marker plus preceding whitespace. -/
def stripFences (content : String) : String :=
  if content.startsWith "```json" then
    stripTrailingFence ((content.drop 7).dropWhile (fun c => c.isWhitespace))
  else if content.startsWith "```" then
    stripTrailingFence ((content.drop 3).dropWhile (fun c => c.isWhitespace))
  else content

/-- Errors escaping a pipeline function to its caller: either a rethrown
upstream call error, or an error thrown by the code itself (modelled by a
message naming it). -/
inductive JsError (ε : Type) where
  | upstream (e : ε)
  | thrown (msg : String)
deriving Repr, DecidableEq

/-- Embedding of `parseVibesText` (src/index.js lines 17-73).  The awaited
axios call sits OUTSIDE the try block, so its failure propagates; `apiResult`
is that call outcome.  `jsonParse` models the JSON.parse builtin: `none` when
JSON.parse throws on the given string, `some v` when it returns a value (the
source performs no validation on the parsed value).  The try block covers the
content extraction, fence stripping and JSON.parse, but the catch block
(line 63) re-evaluates `response.data.choices[0].message.content` while
logging: when the content access chain is what failed (missing or empty
choices, missing message or content), that same access throws again INSIDE
the catch and the TypeError propagates to the caller.  Only a JSON.parse
failure on successfully extracted content reaches the default-profile
return. -/
def parseVibesText (jsonParse : String → Option VibesData)
    (apiResult : Except ε ApiResponse) : Except (JsError ε) VibesData :=
  match apiResult with
  | .error e => .error (.upstream e)
  | .ok resp =>
    match resp.content? with
    | none => .error (.thrown "TypeError")
    | some content =>
      match jsonParse (stripFences content.trim) with
      | some v => .ok v
      | none => .ok defaultVibes

/-- JavaScript truthiness of a nullable string: null and the empty string are
falsy, every other string is truthy. -/
def jsTruthy : Option String → Bool
  | none => false
  | some s => !s.isEmpty

/-- Model of the identity-exchange HTTP response body: `access_token` is
`rsp.data.access_token`, `none` when the field is absent. -/
structure TokenResp where
  access_token : Option String

/-- Embedding of `getSpotifyToken` (src/index.js lines 76-108) as a state
transformer on the module-level `spotifyToken` variable.  `st` is the cached
value at call time (still unexpired: the 50-minute invalidation timer is
modelled by the caller resetting the state to `none`).  `exchange` is the
outcome of the credential-exchange POST.  Returns the call result, the new
cached state, and the number of credential-exchange network calls performed. -/
def getSpotifyToken (st : Option String) (exchange : Except ε TokenResp) :
    Except ε (Option String) × Option String × Nat :=
  if jsTruthy st then (.ok st, st, 0)
  else
    match exchange with
    | .ok rsp => (.ok rsp.access_token, rsp.access_token, 1)
    | .error e => (.error e, st, 1)

/-- A chat message as consumed by the context collector: author id and an
optional text (missing text is mapped to the empty string by the source). -/
structure SlackMsg where
  user : String
  text : Option String

/-- Channel metadata from `conversations.info`; only logged by the source,
but its retrieval can fail and that failure is absorbed by the same catch. -/
structure ChannelInfo where
  name : String
  is_member : Bool

/-- The ambient context returned to the mood-parsing prompt. -/
structure ContextSnapshot where
  dayOfWeek : String
  timeOfDay : String
  recentMessages : List String
deriving Repr, DecidableEq

/-- The try block of `getContextInfo` (src/index.js lines 120-140): fetch
channel info, then the message history (newest first, limit 5); a failure
of either leaves the result empty.  The fetched messages are filtered to
the requesting user, cut to the 3 most recent, mapped to their text (empty
string when missing) and reversed so they read oldest to newest. -/
def collectRecent (infoRes : Except ε ChannelInfo)
    (historyRes : Except ε' (List SlackMsg)) (userId : String) : List String :=
  match infoRes with
  | .error _ => []
  | .ok _ =>
    match historyRes with
    | .error _ => []
    | .ok msgs =>
      ((((msgs.filter (fun m => m.user == userId)).take 3).map
        (fun m => m.text.getD ""))).reverse

/-- Embedding of `getContextInfo` (src/index.js lines 110-147).  `dayOfWeek`
and `timeOfDay` come from the wall clock and are passed through; the try
block is `collectRecent` above.  When nothing remains after filtering, the
sentinel list is substituted. -/
def getContextInfo (dayOfWeek timeOfDay : String)
    (infoRes : Except ε ChannelInfo) (historyRes : Except ε' (List SlackMsg))
    (userId : String) : ContextSnapshot :=
  { dayOfWeek := dayOfWeek
    timeOfDay := timeOfDay
    recentMessages :=
      if (collectRecent infoRes historyRes userId).length > 0 then
        collectRecent infoRes historyRes userId
      else ["No recent messages"] }

/-- An artist object nested in a raw catalog track. -/
structure RawArtist where
  name : String
deriving Repr, DecidableEq, Inhabited

/-- A raw track object from the catalog (`item.track` in the playlist-tracks
response, or a bare item in the fallback track search).  `popularity` is
`none` when the field is absent.  `randE` and `randV` model the two
Math.random() draws consumed if this track is converted to a candidate. -/
structure RawTrack where
  id : String
  name : String
  artists : List RawArtist
  popularity : Option ℚ
  randE : ℚ
  randV : ℚ
deriving Repr, DecidableEq

/-- A raw playlist object from the catalog search.  `tracks` is the value of
`p.tracks.total` when the `tracks` object and its `total` are present. -/
structure RawPlaylist where
  id : String
  tracks : Option Nat
deriving Repr, DecidableEq

/-- The catalog-service environment: the response (or failure) of each
outbound request, keyed by the string the source sends.  Playlist-search
items and track items are `Option`-wrapped because the raw arrays may hold
null entries (the source guards with `p &&` and `item?.track`). -/
structure SpotifyEnv (ε : Type) where
  searchPlaylists : String → Except ε (List (Option RawPlaylist))
  playlistTracks : String → Except ε (List (Option RawTrack))
  fallbackSearch : String → Except ε (List (Option RawTrack))

/-- Clamp to the unit interval: `Math.max(0, Math.min(1, x))`. -/
def clamp01 (x : ℚ) : ℚ := max 0 (min 1 x)

/-- The four search query strings of src/index.js lines 157-162 (the source
uses `seed_genres[0]` in the last one; on an empty genre list JavaScript
would interpolate "undefined", modelled here by the empty default). -/
def searchQueries (vd : VibesData) : List String :=
  [vd.mood ++ " " ++ String.intercalate " " vd.seed_genres,
   String.intercalate " " vd.seed_genres ++ " playlist",
   vd.mood ++ " music",
   vd.seed_genres.headI ++ " vibes"]

/-- A track candidate as accumulated in `allTracks`. -/
structure Cand where
  name : String
  url : String
  energy : ℚ
  valence : ℚ
  popularity : ℚ
deriving Repr, DecidableEq

/-- The falsy-or default `item.track.popularity || 50`: an absent value or a
(falsy) zero both become 50. -/
def orFifty : Option ℚ → ℚ
  | none => 50
  | some p => if p = 0 then 50 else p

/-- The truthiness test `item.track.name && item.track.artists?.[0]?.name`
on a non-null track object: both the title and the first-artist name must be
present and non-empty. -/
def validNames (tr : RawTrack) : Bool :=
  !tr.name.isEmpty &&
    (match tr.artists.head? with
     | some a => !a.name.isEmpty
     | none => false)

/-- Candidate construction from a valid playlist track (src/index.js lines
197-203): display name "title – artist", canonical link, energy and valence
synthesized as a clamped random offset around the profile targets, and the
falsy-or popularity default. -/
def mkCand (vd : VibesData) (tr : RawTrack) : Cand :=
  { name := tr.name ++ " – " ++ (tr.artists.headI).name
    url := "https://open.spotify.com/track/" ++ tr.id
    energy := clamp01 (tr.randE * 0.4 + (vd.energy - 0.2))
    valence := clamp01 (tr.randV * 0.4 + (vd.valence - 0.2))
    popularity := orFifty tr.popularity }

/-- The playlist filter of src/index.js lines 183-185 fused with the later
non-null access: keep non-null playlists with a present track count strictly
between 10 and 200. -/
def qualifyingPlaylists (items : List (Option RawPlaylist)) : List RawPlaylist :=
  items.filterMap (fun o =>
    match o with
    | some p =>
      match p.tracks with
      | some total => if 10 < total ∧ total < 200 then some p else none
      | none => none
    | none => none)

/-- The track filter-and-map of src/index.js lines 195-203: keep items whose
track object is present with valid names, and convert each to a candidate. -/
def candsOfItems (vd : VibesData) (items : List (Option RawTrack)) : List Cand :=
  items.filterMap (fun o =>
    match o with
    | some tr => if validNames tr then some (mkCand vd tr) else none
    | none => none)

/-- The accumulation loop of src/index.js lines 168-229 (`allTracks`): for
the first two queries, search playlists (a failed search is caught and
contributes nothing), keep the first two qualifying playlists, fetch their
tracks (a failed fetch is caught and contributes nothing) and convert. -/
def collectTracks (env : SpotifyEnv ε) (vd : VibesData) : List Cand :=
  ((searchQueries vd).take 2).flatMap (fun query =>
    match env.searchPlaylists query with
    | .error _ => []
    | .ok items =>
      ((qualifyingPlaylists items).take 2).flatMap (fun playlist =>
        match env.playlistTracks playlist.id with
        | .error _ => []
        | .ok tItems => candsOfItems vd tItems))

/-- Index-tracking helper for the filter-with-index idiom of src/index.js
lines 232-234: the element at position `i` of the original list is kept
exactly when `findIdx` over the original list returns `i`. -/
def dedupAux (orig : List Cand) : Nat → List Cand → List Cand
  | _, [] => []
  | i, t :: ts =>
    if orig.findIdx (fun u => u.name == t.name) == i
    then t :: dedupAux orig (i + 1) ts
    else dedupAux orig (i + 1) ts

/-- Embedding of the deduplication
`allTracks.filter((track, index, self) => index === self.findIndex(t => t.name === track.name))`. -/
def dedupByName (l : List Cand) : List Cand := dedupAux l 0 l

/-- A candidate together with its derived score (the spread
`{...track, score}` of src/index.js lines 237-244). -/
structure Scored extends Cand where
  score : ℚ
deriving Repr, DecidableEq

/-- The scoring formula of src/index.js lines 239-243. -/
def computeScore (vd : VibesData) (t : Cand) : ℚ :=
  (1 - |t.energy - vd.energy|) * 0.4 +
  (1 - |t.valence - vd.valence|) * 0.4 +
  (t.popularity / 100) * 0.2

/-- Attach the score to a candidate. -/
def addScore (vd : VibesData) (t : Cand) : Scored :=
  { toCand := t, score := computeScore vd t }

/-- Insert into a descending-by-score list, after all strictly greater or
equal scores (preserving the relative order of equal scores). -/
def insertDesc (t : Scored) : List Scored → List Scored
  | [] => [t]
  | u :: us => if u.score < t.score then t :: u :: us else u :: insertDesc t us

/-- Model of `scoredTracks.sort((a, b) => b.score - a.score)`: a stable sort
placing higher scores first, realized as insertion sort. -/
def sortByScoreDesc : List Scored → List Scored
  | [] => []
  | t :: ts => insertDesc t (sortByScoreDesc ts)

/-- The `selectedTracks` value of src/index.js lines 247-249: deduplicate,
score, sort descending by score, take the top 15. -/
def selectedTracks (env : SpotifyEnv ε) (vd : VibesData) : List Scored :=
  (sortByScoreDesc ((dedupByName (collectTracks env vd)).map (addScore vd))).take 15

/-- A track returned by the genre-only fallback branch: no popularity and no
score field, energy and valence set to the profile targets. -/
structure FbTrack where
  name : String
  url : String
  energy : ℚ
  valence : ℚ
deriving Repr, DecidableEq

/-- The fallback filter-and-map of src/index.js lines 259-266. -/
def mkFbTracks (vd : VibesData) (items : List (Option RawTrack)) : List FbTrack :=
  items.filterMap (fun o =>
    match o with
    | some t =>
      if validNames t then
        some { name := t.name ++ " – " ++ (t.artists.headI).name
               url := "https://open.spotify.com/track/" ++ t.id
               energy := vd.energy
               valence := vd.valence }
      else none
    | none => none)

/-- The two shapes `getRecommendations` can return: the scored-and-selected
tracks, or the fallback tracks (distinguishable in the source by the extra
`score` and `popularity` fields on scored objects). -/
inductive RecResult where
  | scored (tracks : List Scored)
  | fallback (tracks : List FbTrack)
deriving Repr, DecidableEq

/-- Length of the returned track sequence. -/
def RecResult.length : RecResult → Nat
  | .scored ts => ts.length
  | .fallback ts => ts.length

/-- Embedding of `getRecommendations` (src/index.js lines 149-274).
`tokenRes` is the outcome of `getSpotifyToken()` (its value may itself be
null when the identity response lacked an access token, triggering the
explicit throw).  When the selection is empty the genre-only fallback search
is issued with the first seed genre; its failure is rethrown by the outer
catch. -/
def getRecommendations (tokenRes : Except ε (Option String)) (env : SpotifyEnv ε)
    (vd : VibesData) : Except (JsError ε) RecResult :=
  match tokenRes with
  | .error e => .error (.upstream e)
  | .ok token =>
    if !(jsTruthy token) then .error (.thrown "Failed to get Spotify access token")
    else
      if (selectedTracks env vd).length = 0 then
        match env.fallbackSearch vd.seed_genres.headI with
        | .error e => .error (.upstream e)
        | .ok items => .ok (.fallback (mkFbTracks vd items))
      else .ok (.scored (selectedTracks env vd))

/-- An environment in which every catalog request succeeds with an empty
item list (used to instantiate general theorems at a concrete input). -/
def envEmptyOk : SpotifyEnv Unit :=
  { searchPlaylists := fun _ => .ok []
    playlistTracks := fun _ => .ok []
    fallbackSearch := fun _ => .ok [] }

/-- A structurally well-typed profile the model could produce (JSON.parse
performs no range or length validation): empty genre list, energy and
valence far outside the unit interval. -/
def badProfile : VibesData :=
  { mood := "x"
    seed_genres := []
    energy := 3
    valence := 3
    playlist_name := "p"
    playlist_description := "d" }

section Lemmas

/-- Inserting into the descending list adds exactly one element. -/
theorem length_insertDesc (t : Scored) (l : List Scored) :
    (insertDesc t l).length = l.length + 1 := by
  induction l with
  | nil => rfl
  | cons u us ih =>
    simp only [insertDesc]
    split
    · simp
    · simp [ih]

/-- The descending sort is a length-preserving rearrangement. -/
theorem length_sortByScoreDesc (l : List Scored) :
    (sortByScoreDesc l).length = l.length := by
  induction l with
  | nil => rfl
  | cons t ts ih => simp [sortByScoreDesc, length_insertDesc, ih]

/-- Every fallback track carries exactly the profile target energy and
valence. -/
theorem mem_mkFbTracks (vd : VibesData) (items : List (Option RawTrack))
    (t : FbTrack) (h : t ∈ mkFbTracks vd items) :
    t.energy = vd.energy ∧ t.valence = vd.valence := by
  rw [mkFbTracks, List.mem_filterMap] at h
  obtain ⟨o, -, ho⟩ := h
  match o with
  | none => simp at ho
  | some tr =>
    simp only at ho
    split at ho
    · cases ho
      exact ⟨rfl, rfl⟩
    · simp at ho

/-- The clamped synthetic features always land in the unit interval. -/
theorem clamp01_mem (x : ℚ) : 0 ≤ clamp01 x ∧ clamp01 x ≤ 1 := by
  refine ⟨le_max_left 0 _, max_le (by norm_num) (min_le_left 1 x)⟩

end Lemmas

/-- C2: for every candidate whose energy and valence lie in [0,1] and whose
popularity lies in [0,100], and every target energy and valence in [0,1],
the computed score equals
0.4*(1 - |energy - target.energy|) + 0.4*(1 - |valence - target.valence|)
 + 0.2*(popularity/100), and this score lies in [0,1]. -/
theorem score_formula_and_range (vd : VibesData) (t : Cand)
    (he0 : 0 ≤ t.energy) (he1 : t.energy ≤ 1)
    (hv0 : 0 ≤ t.valence) (hv1 : t.valence ≤ 1)
    (hp0 : 0 ≤ t.popularity) (hp1 : t.popularity ≤ 100)
    (hte0 : 0 ≤ vd.energy) (hte1 : vd.energy ≤ 1)
    (htv0 : 0 ≤ vd.valence) (htv1 : vd.valence ≤ 1) :
    computeScore vd t =
      0.4 * (1 - |t.energy - vd.energy|) + 0.4 * (1 - |t.valence - vd.valence|)
        + 0.2 * (t.popularity / 100) ∧
    0 ≤ computeScore vd t ∧ computeScore vd t ≤ 1 := by
  have hE : |t.energy - vd.energy| ≤ 1 :=
    abs_le.mpr ⟨by linarith, by linarith⟩
  have hV : |t.valence - vd.valence| ≤ 1 :=
    abs_le.mpr ⟨by linarith, by linarith⟩
  have hE0 : 0 ≤ |t.energy - vd.energy| := abs_nonneg _
  have hV0 : 0 ≤ |t.valence - vd.valence| := abs_nonneg _
  refine ⟨by rw [computeScore]; ring, ?_, ?_⟩ <;>
    · rw [computeScore]
      rw [show (0.4 : ℚ) = 2/5 by norm_num, show (0.2 : ℚ) = 1/5 by norm_num]
      nlinarith

/-- C2 witness: the theorem applied at the default target and a concrete
candidate. -/
theorem score_formula_and_range_witness :
    computeScore defaultVibes
        { name := "t", url := "u", energy := 1/4, valence := 3/4, popularity := 60 } =
      0.4 * (1 - |(1/4 : ℚ) - defaultVibes.energy|)
        + 0.4 * (1 - |(3/4 : ℚ) - defaultVibes.valence|) + 0.2 * (60 / 100) ∧
    0 ≤ computeScore defaultVibes
        { name := "t", url := "u", energy := 1/4, valence := 3/4, popularity := 60 } ∧
    computeScore defaultVibes
        { name := "t", url := "u", energy := 1/4, valence := 3/4, popularity := 60 } ≤ 1 :=
  score_formula_and_range defaultVibes
    { name := "t", url := "u", energy := 1/4, valence := 3/4, popularity := 60 }
    (by norm_num) (by norm_num) (by norm_num) (by norm_num) (by norm_num)
    (by norm_num) (by norm_num [defaultVibes]) (by norm_num [defaultVibes])
    (by norm_num [defaultVibes]) (by norm_num [defaultVibes])

/-- C4: when the energy and valence distances to the target agree, a higher
popularity yields a strictly higher score (monotonicity); at the target
profile energy 0.5 / valence 0.5, candidates matching the target exactly
with popularities 80 and 20 differ in score by exactly 0.12, and the
stable descending sort places the popularity-80 candidate first whichever
order the pair arrives in. -/
theorem ranking_by_popularity :
    (∀ (vd : VibesData) (a b : Cand),
      |a.energy - vd.energy| = |b.energy - vd.energy| →
      |a.valence - vd.valence| = |b.valence - vd.valence| →
      b.popularity < a.popularity →
      computeScore vd b < computeScore vd a) ∧
    computeScore defaultVibes
        { name := "hi", url := "u1", energy := 1/2, valence := 1/2, popularity := 80 } -
      computeScore defaultVibes
        { name := "lo", url := "u2", energy := 1/2, valence := 1/2, popularity := 20 } =
      0.12 ∧
    sortByScoreDesc
        [addScore defaultVibes
          { name := "lo", url := "u2", energy := 1/2, valence := 1/2, popularity := 20 },
         addScore defaultVibes
          { name := "hi", url := "u1", energy := 1/2, valence := 1/2, popularity := 80 }] =
        [addScore defaultVibes
          { name := "hi", url := "u1", energy := 1/2, valence := 1/2, popularity := 80 },
         addScore defaultVibes
          { name := "lo", url := "u2", energy := 1/2, valence := 1/2, popularity := 20 }] ∧
    sortByScoreDesc
        [addScore defaultVibes
          { name := "hi", url := "u1", energy := 1/2, valence := 1/2, popularity := 80 },
         addScore defaultVibes
          { name := "lo", url := "u2", energy := 1/2, valence := 1/2, popularity := 20 }] =
        [addScore defaultVibes
          { name := "hi", url := "u1", energy := 1/2, valence := 1/2, popularity := 80 },
         addScore defaultVibes
          { name := "lo", url := "u2", energy := 1/2, valence := 1/2, popularity := 20 }] := by
  refine ⟨?_, ?_, ?_, ?_⟩
  · intro vd a b hE hV hP
    rw [computeScore, computeScore, hE, hV]
    have : (0.2 : ℚ) = 1/5 := by norm_num
    nlinarith
  · norm_num [computeScore, defaultVibes]
  · norm_num [sortByScoreDesc, insertDesc, addScore, computeScore, defaultVibes]
  · norm_num [sortByScoreDesc, insertDesc, addScore, computeScore, defaultVibes]

/-- C10: a playlist-derived track with absent popularity or popularity 0 is
recorded with popularity 50, is literally the same candidate as one with
popularity 50, and is therefore scored identically. -/
theorem popularity_falsy_default (vd : VibesData) (tr : RawTrack)
    (h : tr.popularity = none ∨ tr.popularity = some 0) :
    (mkCand vd tr).popularity = 50 ∧
    mkCand vd tr = mkCand vd { tr with popularity := some 50 } ∧
    computeScore vd (mkCand vd tr) =
      computeScore vd (mkCand vd { tr with popularity := some 50 }) := by
  refine ⟨?_, ?_, ?_⟩ <;> rcases h with h | h <;> simp [mkCand, orFifty, h]

/-- C10 witness: the theorem applied to a concrete track with popularity 0. -/
theorem popularity_falsy_default_witness :
    (mkCand defaultVibes
        { id := "i", name := "n", artists := [{ name := "a" }],
          popularity := some 0, randE := 0, randV := 0 }).popularity = 50 ∧
    mkCand defaultVibes
        { id := "i", name := "n", artists := [{ name := "a" }],
          popularity := some 0, randE := 0, randV := 0 } =
      mkCand defaultVibes
        { id := "i", name := "n", artists := [{ name := "a" }],
          popularity := some 50, randE := 0, randV := 0 } ∧
    computeScore defaultVibes
        (mkCand defaultVibes
          { id := "i", name := "n", artists := [{ name := "a" }],
            popularity := some 0, randE := 0, randV := 0 }) =
      computeScore defaultVibes
        (mkCand defaultVibes
          { id := "i", name := "n", artists := [{ name := "a" }],
            popularity := some 50, randE := 0, randV := 0 }) :=
  popularity_falsy_default defaultVibes
    { id := "i", name := "n", artists := [{ name := "a" }],
      popularity := some 0, randE := 0, randV := 0 }
    (Or.inr rfl)

/-- C1: for every mood profile, getRecommendations returns a sequence of at
most 15 tracks, in the scored branch and in the genre-only fallback branch
alike (the fallback request carries limit=15, modelled as the hypothesis
that the fallback response holds at most 15 items). -/
theorem recommend_length_le_15 {ε : Type} (tokenRes : Except ε (Option String))
    (env : SpotifyEnv ε) (vd : VibesData)
    (hfb : ∀ items, env.fallbackSearch vd.seed_genres.headI = .ok items →
      items.length ≤ 15)
    (res : RecResult) (h : getRecommendations tokenRes env vd = .ok res) :
    res.length ≤ 15 := by
  cases tokenRes with
  | error e => simp [getRecommendations] at h
  | ok token =>
    rw [getRecommendations] at h
    split at h
    · exact absurd h (by simp)
    · by_cases hsel : (selectedTracks env vd).length = 0
      · rw [if_pos hsel] at h
        cases hfs : env.fallbackSearch vd.seed_genres.headI with
        | error e => rw [hfs] at h; simp at h
        | ok items =>
          rw [hfs] at h
          injection h with h2
          subst h2
          rw [RecResult.length, mkFbTracks]
          exact le_trans (List.length_filterMap_le _ _) (hfb items hfs)
      · rw [if_neg hsel] at h
        injection h with h2
        subst h2
        rw [RecResult.length, selectedTracks]
        exact List.length_take_le 15 _

/-- C1 witness: the theorem applied to an environment whose calls all
return empty results; the result is the empty fallback list. -/
theorem recommend_length_le_15_witness :
    (RecResult.fallback ([] : List FbTrack)).length ≤ 15 :=
  recommend_length_le_15 (ε := Unit) (.ok (some "tok")) envEmptyOk defaultVibes
    (fun items h => by
      injection h with h
      subst h
      decide)
    (RecResult.fallback [])
    (by
      have hjs : jsTruthy (some "tok") = true := by decide
      simp [getRecommendations, envEmptyOk, selectedTracks, collectTracks,
        searchQueries, defaultVibes, hjs, dedupByName, dedupAux,
        sortByScoreDesc, mkFbTracks])

/-- C5: with a usable token, the genre-only fallback search is issued if
and only if the scored candidate selection is empty; it is issued with the
first seed genre only, returns at most 15 tracks (the response being bounded
by the requested limit of 15), and every returned track carries exactly the
profile target energy and valence.  When the selection is nonempty the
result is the scored selection and no fallback search result is returned. -/
theorem fallback_iff_empty {ε : Type} (tok : String) (env : SpotifyEnv ε)
    (vd : VibesData) (htok : tok.isEmpty = false)
    (hfb : ∀ items, env.fallbackSearch vd.seed_genres.headI = .ok items →
      items.length ≤ 15) :
    (selectedTracks env vd = [] →
      (∀ e, env.fallbackSearch vd.seed_genres.headI = .error e →
        getRecommendations (.ok (some tok)) env vd = .error (.upstream e)) ∧
      (∀ items, env.fallbackSearch vd.seed_genres.headI = .ok items →
        getRecommendations (.ok (some tok)) env vd =
          .ok (.fallback (mkFbTracks vd items)) ∧
        (mkFbTracks vd items).length ≤ 15 ∧
        ∀ t ∈ mkFbTracks vd items,
          t.energy = vd.energy ∧ t.valence = vd.valence)) ∧
    (selectedTracks env vd ≠ [] →
      getRecommendations (.ok (some tok)) env vd =
        .ok (.scored (selectedTracks env vd))) := by
  have hjs : jsTruthy (some tok) = true := by simp [jsTruthy, htok]
  constructor
  · intro hsel
    constructor
    · intro e he
      rw [getRecommendations]
      simp [hjs, hsel, he]
    · intro items hi
      refine ⟨?_, ?_, fun t ht => mem_mkFbTracks vd items t ht⟩
      · rw [getRecommendations]
        simp [hjs, hsel, hi]
      · rw [mkFbTracks]
        exact le_trans (List.length_filterMap_le _ _) (hfb items hi)
  · intro hsel
    rw [getRecommendations]
    simp [hjs, List.length_eq_zero, hsel]

/-- C5 witness: in the all-empty environment the selection is empty and the
function returns the (empty) fallback list built from the fallback search
response for the first seed genre. -/
theorem fallback_iff_empty_witness :
    getRecommendations (ε := Unit) (.ok (some "tok")) envEmptyOk defaultVibes
      = .ok (.fallback (mkFbTracks defaultVibes [])) := by
  have hsel : selectedTracks envEmptyOk defaultVibes = [] := by
    simp [selectedTracks, collectTracks, searchQueries, envEmptyOk,
      dedupByName, dedupAux, sortByScoreDesc]
  exact (((fallback_iff_empty (ε := Unit) "tok" envEmptyOk defaultVibes
    (by decide)
    (fun items h => by
      injection h with h
      subst h
      decide)).1 hsel).2 [] rfl).1

/-- C4 witness: the monotonicity part of the theorem applied at the default
target and the two concrete candidates of the claim. -/
theorem ranking_by_popularity_witness :
    computeScore defaultVibes
        { name := "lo", url := "u2", energy := 1/2, valence := 1/2, popularity := 20 } <
      computeScore defaultVibes
        { name := "hi", url := "u1", energy := 1/2, valence := 1/2, popularity := 80 } :=
  ranking_by_popularity.1 defaultVibes
    { name := "hi", url := "u1", energy := 1/2, valence := 1/2, popularity := 80 }
    { name := "lo", url := "u2", energy := 1/2, valence := 1/2, popularity := 20 }
    rfl rfl (by norm_num)

/-- C7 counterexample: the parsed profile is used downstream without any
validation or clamping.  A structurally valid model output with an empty
genre list and energy/valence 3 flows out of parseVibesText unchanged, and
the scoring formula consumes the unclamped target: a candidate whose own
(clamped) features are at the boundary receives the score -4/5, outside
[0,1], which is impossible had the targets been clamped to [0,1]. -/
theorem profile_not_clamped_counterexample :
    parseVibesText (ε := Unit) (fun _ => some badProfile)
        (Except.ok { content? := some "x" }) = Except.ok badProfile ∧
    badProfile.seed_genres.length = 0 ∧
    badProfile.energy = 3 ∧
    computeScore badProfile
        { name := "t", url := "u", energy := 1, valence := 1, popularity := 0 }
      = -(4/5) := by
  refine ⟨rfl, rfl, rfl, ?_⟩
  norm_num [computeScore, badProfile, abs_of_nonpos]

/-- C7 amended: the fixed default profile satisfies the invariant
(seedGenres length 1-3, energy and valence in [0,1]), and the synthesized
per-track energy and valence are clamped to [0,1] before scoring; but the
profile itself is used exactly as parsed — neither its seedGenres length
nor its energy/valence are validated or clamped before reaching the offset
synthesis, the scoring formula or the fallback tracks. -/
theorem default_profile_invariant_and_feature_clamp :
    (1 ≤ defaultVibes.seed_genres.length ∧ defaultVibes.seed_genres.length ≤ 3 ∧
      0 ≤ defaultVibes.energy ∧ defaultVibes.energy ≤ 1 ∧
      0 ≤ defaultVibes.valence ∧ defaultVibes.valence ≤ 1) ∧
    ∀ (vd : VibesData) (tr : RawTrack),
      0 ≤ (mkCand vd tr).energy ∧ (mkCand vd tr).energy ≤ 1 ∧
      0 ≤ (mkCand vd tr).valence ∧ (mkCand vd tr).valence ≤ 1 := by
  refine ⟨by norm_num [defaultVibes], fun vd tr => ?_⟩
  have he := clamp01_mem (tr.randE * 0.4 + (vd.energy - 0.2))
  have hv := clamp01_mem (tr.randV * 0.4 + (vd.valence - 0.2))
  exact ⟨he.1, he.2, hv.1, hv.2⟩

/-- C8: the context collector is a total function; a failure of the channel
info fetch or of the history fetch degrades to the sentinel list, the
successful path returns the requesting user messages (at most the 3 most
recent of the fetched window, missing text replaced by the empty string)
reversed to read oldest first — or the sentinel when none remain — and the
returned list is never empty and never longer than 3. -/
theorem context_always_usable (dayOfWeek timeOfDay : String)
    (infoRes : Except ε ChannelInfo) (historyRes : Except ε' (List SlackMsg))
    (userId : String) :
    (∀ e, infoRes = .error e →
      (getContextInfo dayOfWeek timeOfDay infoRes historyRes userId).recentMessages
        = ["No recent messages"]) ∧
    (∀ e, historyRes = .error e →
      (getContextInfo dayOfWeek timeOfDay infoRes historyRes userId).recentMessages
        = ["No recent messages"]) ∧
    (∀ info msgs, infoRes = .ok info → historyRes = .ok msgs →
      (getContextInfo dayOfWeek timeOfDay infoRes historyRes userId).recentMessages
        = (if ((((msgs.filter (fun m => m.user == userId)).take 3).map
              (fun m => m.text.getD ""))).reverse = []
           then ["No recent messages"]
           else ((((msgs.filter (fun m => m.user == userId)).take 3).map
              (fun m => m.text.getD ""))).reverse)) ∧
    (getContextInfo dayOfWeek timeOfDay infoRes historyRes userId).recentMessages
      ≠ [] ∧
    (getContextInfo dayOfWeek timeOfDay infoRes historyRes userId).recentMessages.length
      ≤ 3 := by
  have hlen : (collectRecent infoRes historyRes userId).length ≤ 3 := by
    cases infoRes with
    | error e => simp [collectRecent]
    | ok info =>
      cases historyRes with
      | error e => simp [collectRecent]
      | ok msgs =>
        simp only [collectRecent, List.length_reverse, List.length_map]
        exact List.length_take_le 3 _
  refine ⟨?_, ?_, ?_, ?_, ?_⟩
  · intro e he
    subst he
    rfl
  · intro e he
    subst he
    cases infoRes <;> rfl
  · intro info msgs hi hh
    subst hi
    subst hh
    show (if (collectRecent (Except.ok info : Except ε ChannelInfo)
          (Except.ok msgs : Except ε' (List SlackMsg)) userId).length > 0 then
        collectRecent (Except.ok info : Except ε ChannelInfo)
          (Except.ok msgs : Except ε' (List SlackMsg)) userId
      else ["No recent messages"]) = _
    have hcr : collectRecent (Except.ok info : Except ε ChannelInfo)
          (Except.ok msgs : Except ε' (List SlackMsg)) userId
        = (((msgs.filter (fun m => m.user == userId)).take 3).map
            (fun m => m.text.getD "")).reverse := rfl
    rw [hcr]
    by_cases h : (((msgs.filter (fun m => m.user == userId)).take 3).map
        (fun m => m.text.getD "")).reverse = []
    · rw [h]
      simp
    · rw [if_pos (List.length_pos.mpr h), if_neg h]
  · show (if (collectRecent infoRes historyRes userId).length > 0 then
        collectRecent infoRes historyRes userId
      else ["No recent messages"]) ≠ []
    split
    · rename_i hpos
      exact List.length_pos.mp hpos
    · simp
  · show (if (collectRecent infoRes historyRes userId).length > 0 then
        collectRecent infoRes historyRes userId
      else ["No recent messages"]).length ≤ 3
    split
    · exact hlen
    · simp

/-- C8 witness: with a failing history fetch the snapshot holds exactly the
sentinel list. -/
theorem context_always_usable_witness :
    (getContextInfo "Monday" "9 AM"
        (Except.ok { name := "general", is_member := true } : Except Unit ChannelInfo)
        (Except.error () : Except Unit (List SlackMsg)) "U1").recentMessages
      = ["No recent messages"] :=
  (context_always_usable "Monday" "9 AM"
      (Except.ok { name := "general", is_member := true } : Except Unit ChannelInfo)
      (Except.error () : Except Unit (List SlackMsg)) "U1").2.1 () rfl

/-- C9: starting from the empty cache, a successful credential exchange
makes the first call return the fresh token with exactly one network call;
a second sequential call within the cache window is a pure cache hit
returning the identical value with no network call — so the pair performs
exactly one exchange in total — and, in general, any call that finds a
truthy cached value returns it with zero network calls. -/
theorem token_cache_reuse (t : String) (ht : t.isEmpty = false)
    (ex2 : Except ε TokenResp) :
    getSpotifyToken (ε := ε) none (.ok { access_token := some t })
      = (.ok (some t), some t, 1) ∧
    getSpotifyToken (some t) ex2 = (.ok (some t), some t, 0) ∧
    (∀ (st : Option String) (ex : Except ε TokenResp), jsTruthy st = true →
      getSpotifyToken st ex = (.ok st, st, 0)) := by
  refine ⟨rfl, ?_, ?_⟩
  · rw [getSpotifyToken.eq_def]
    simp [jsTruthy, ht]
  · intro st ex hst
    rw [getSpotifyToken.eq_def, hst]
    rfl

/-- C9 witness: the theorem applied to a concrete token value with a
failing second exchange (which the cache hit never consults). -/
theorem token_cache_reuse_witness :
    getSpotifyToken (ε := Unit) none (.ok { access_token := some "tok" })
      = (.ok (some "tok"), some "tok", 1) ∧
    getSpotifyToken (ε := Unit) (some "tok") (.error ())
      = (.ok (some "tok"), some "tok", 0) :=
  ⟨(token_cache_reuse (ε := Unit) "tok" (by decide) (.error ())).1,
   (token_cache_reuse (ε := Unit) "tok" (by decide) (.error ())).2.1⟩

/-- Characterization of the filter-with-index recursion: running `dedupAux`
on the suffix of `l` starting at position `i` and then keeping only the
entries named `n` yields the first occurrence of `n` in `l` when that
occurrence lies at or beyond position `i`, and nothing otherwise. -/
theorem dedupAux_filter (l : List Cand) (n : String) :
    ∀ (rest : List Cand) (i : Nat), rest = l.drop i →
      (dedupAux l i rest).filter (fun t => t.name == n) =
        if h : i ≤ l.findIdx (fun u => u.name == n) ∧
            l.findIdx (fun u => u.name == n) < l.length
        then [l.get ⟨l.findIdx (fun u => u.name == n), h.2⟩]
        else [] := by
  intro rest
  induction rest with
  | nil =>
    intro i hdrop
    have hlen : l.length ≤ i := List.drop_eq_nil_iff.mp hdrop.symm
    rw [dedupAux, List.filter_nil, dif_neg]
    rintro ⟨h1, h2⟩
    omega
  | cons t ts ih =>
    intro i hdrop
    have hi : i < l.length := by
      by_contra hge
      push_neg at hge
      rw [List.drop_eq_nil_of_le hge] at hdrop
      simp at hdrop
    have hget : l.get ⟨i, hi⟩ = t := by
      have h1 : l[i]? = some t := by
        have h2 : (l.drop i)[0]? = some t := by
          rw [← hdrop]
          simp
        rw [List.getElem?_drop] at h2
        simpa using h2
      rw [List.getElem?_eq_getElem hi] at h1
      simpa using h1
    have hts : ts = l.drop (i + 1) := by
      rw [← List.tail_drop, ← hdrop]
      rfl
    rw [dedupAux]
    by_cases hn : t.name = n
    · have hfun : (fun u : Cand => u.name == t.name) = fun u => u.name == n := by
        funext u
        rw [hn]
      rw [hfun]
      by_cases hki : l.findIdx (fun u => u.name == n) = i
      · rw [if_pos (by simpa using hki),
          List.filter_cons_of_pos (by simpa using hn), ih (i + 1) hts,
          dif_neg (by rintro ⟨h1, h2⟩; omega),
          dif_pos ⟨by omega, by rw [hki]; exact hi⟩]
        simp only [hki]
        rw [hget]
      · have hile : l.findIdx (fun u => u.name == n) ≤ i := by
          by_contra hgt
          push_neg at hgt
          have hnp := List.not_of_lt_findIdx hgt
          rw [List.get_eq_getElem] at hget
          rw [hget] at hnp
          simp [hn] at hnp
        have hklt : l.findIdx (fun u => u.name == n) < i := lt_of_le_of_ne hile hki
        rw [if_neg (by simpa using hki), ih (i + 1) hts,
          dif_neg (by rintro ⟨h1, h2⟩; omega),
          dif_neg (by rintro ⟨h1, h2⟩; omega)]
    · have hrec : (dedupAux l (i + 1) ts).filter (fun t => t.name == n) =
          if h : i ≤ l.findIdx (fun u => u.name == n) ∧
              l.findIdx (fun u => u.name == n) < l.length
          then [l.get ⟨l.findIdx (fun u => u.name == n), h.2⟩]
          else [] := by
        rw [ih (i + 1) hts]
        by_cases hklen : l.findIdx (fun u => u.name == n) < l.length
        · have hne : l.findIdx (fun u => u.name == n) ≠ i := by
            intro he
            have hp := @List.findIdx_getElem _ (fun u => u.name == n) l hklen
            simp only [he] at hp
            rw [List.get_eq_getElem] at hget
            rw [hget] at hp
            simp [hn] at hp
          by_cases hik : i ≤ l.findIdx (fun u => u.name == n)
          · rw [dif_pos ⟨by omega, hklen⟩, dif_pos ⟨hik, hklen⟩]
          · rw [dif_neg (by rintro ⟨h1, h2⟩; omega),
              dif_neg (by rintro ⟨h1, h2⟩; omega)]
        · rw [dif_neg (by rintro ⟨h1, h2⟩; exact hklen h2),
            dif_neg (by rintro ⟨h1, h2⟩; exact hklen h2)]
      by_cases hcond : (l.findIdx (fun u => u.name == t.name) == i) = true
      · rw [if_pos hcond, List.filter_cons_of_neg (by simpa using hn), hrec]
      · rw [if_neg hcond, hrec]

/-- The deduplicated list, restricted to any fixed name, is exactly the
first occurrence of that name in the input (or empty when absent). -/
theorem dedupByName_filter (l : List Cand) (n : String) :
    (dedupByName l).filter (fun t => t.name == n) =
      if h : l.findIdx (fun u => u.name == n) < l.length
      then [l.get ⟨l.findIdx (fun u => u.name == n), h⟩]
      else [] := by
  rw [dedupByName, dedupAux_filter l n l 0 (by simp)]
  by_cases h : l.findIdx (fun u => u.name == n) < l.length
  · rw [dif_pos ⟨Nat.zero_le _, h⟩, dif_pos h]
  · rw [dif_neg (by rintro ⟨h1, h2⟩; exact h h2), dif_neg h]

/-- C3: deduplication by exact name keeps exactly the first occurrence of
each name: whenever the accumulated list holds two entries with identical
name, the deduplicated output holds exactly one entry with that name,
namely the occurrence at the smallest index (which is at or before the
first of the two duplicates). -/
theorem dedup_keeps_first_occurrence (l : List Cand) (i j : Nat)
    (hi : i < l.length) (hj : j < l.length) (hij : i ≠ j)
    (hname : (l.get ⟨i, hi⟩).name = (l.get ⟨j, hj⟩).name) :
    ∃ hk : l.findIdx (fun u => u.name == (l.get ⟨i, hi⟩).name) < l.length,
      (dedupByName l).filter (fun t => t.name == (l.get ⟨i, hi⟩).name)
        = [l.get ⟨l.findIdx (fun u => u.name == (l.get ⟨i, hi⟩).name), hk⟩] ∧
      ((dedupByName l).filter (fun t => t.name == (l.get ⟨i, hi⟩).name)).length
        = 1 ∧
      l.findIdx (fun u => u.name == (l.get ⟨i, hi⟩).name) ≤ i := by
  have hex : ∃ x ∈ l, (x.name == (l.get ⟨i, hi⟩).name) = true :=
    ⟨l.get ⟨i, hi⟩, l.get_mem _ _, by simp⟩
  have hk : l.findIdx (fun u => u.name == (l.get ⟨i, hi⟩).name) < l.length :=
    List.findIdx_lt_length.mpr hex
  refine ⟨hk, ?_, ?_, ?_⟩
  · rw [dedupByName_filter, dif_pos hk]
  · rw [dedupByName_filter, dif_pos hk]
    rfl
  · by_contra hgt
    push_neg at hgt
    have hnp := List.not_of_lt_findIdx hgt
    simp [List.get_eq_getElem] at hnp

/-- C3 witness: the theorem applied to a concrete three-element list whose
first and third entries share the name "x". -/
theorem dedup_keeps_first_occurrence_witness :
    ∃ hk : ([{ name := "x", url := "u1", energy := 0, valence := 0, popularity := 1 },
             { name := "y", url := "u2", energy := 0, valence := 0, popularity := 2 },
             { name := "x", url := "u3", energy := 0, valence := 0, popularity := 3 }]
              : List Cand).findIdx
            (fun u => u.name ==
              (([{ name := "x", url := "u1", energy := 0, valence := 0, popularity := 1 },
                 { name := "y", url := "u2", energy := 0, valence := 0, popularity := 2 },
                 { name := "x", url := "u3", energy := 0, valence := 0, popularity := 3 }]
                  : List Cand).get ⟨0, by decide⟩).name) <
          ([{ name := "x", url := "u1", energy := 0, valence := 0, popularity := 1 },
            { name := "y", url := "u2", energy := 0, valence := 0, popularity := 2 },
            { name := "x", url := "u3", energy := 0, valence := 0, popularity := 3 }]
             : List Cand).length,
      (dedupByName
          [{ name := "x", url := "u1", energy := 0, valence := 0, popularity := 1 },
           { name := "y", url := "u2", energy := 0, valence := 0, popularity := 2 },
           { name := "x", url := "u3", energy := 0, valence := 0, popularity := 3 }]).filter
          (fun t => t.name ==
            (([{ name := "x", url := "u1", energy := 0, valence := 0, popularity := 1 },
               { name := "y", url := "u2", energy := 0, valence := 0, popularity := 2 },
               { name := "x", url := "u3", energy := 0, valence := 0, popularity := 3 }]
                : List Cand).get ⟨0, by decide⟩).name)
        = [([{ name := "x", url := "u1", energy := 0, valence := 0, popularity := 1 },
             { name := "y", url := "u2", energy := 0, valence := 0, popularity := 2 },
             { name := "x", url := "u3", energy := 0, valence := 0, popularity := 3 }]
              : List Cand).get
            ⟨([{ name := "x", url := "u1", energy := 0, valence := 0, popularity := 1 },
               { name := "y", url := "u2", energy := 0, valence := 0, popularity := 2 },
               { name := "x", url := "u3", energy := 0, valence := 0, popularity := 3 }]
                : List Cand).findIdx
              (fun u => u.name ==
                (([{ name := "x", url := "u1", energy := 0, valence := 0, popularity := 1 },
                   { name := "y", url := "u2", energy := 0, valence := 0, popularity := 2 },
                   { name := "x", url := "u3", energy := 0, valence := 0, popularity := 3 }]
                    : List Cand).get ⟨0, by decide⟩).name), hk⟩] ∧
      ((dedupByName
          [{ name := "x", url := "u1", energy := 0, valence := 0, popularity := 1 },
           { name := "y", url := "u2", energy := 0, valence := 0, popularity := 2 },
           { name := "x", url := "u3", energy := 0, valence := 0, popularity := 3 }]).filter
          (fun t => t.name ==
            (([{ name := "x", url := "u1", energy := 0, valence := 0, popularity := 1 },
               { name := "y", url := "u2", energy := 0, valence := 0, popularity := 2 },
               { name := "x", url := "u3", energy := 0, valence := 0, popularity := 3 }]
                : List Cand).get ⟨0, by decide⟩).name)).length = 1 ∧
      ([{ name := "x", url := "u1", energy := 0, valence := 0, popularity := 1 },
        { name := "y", url := "u2", energy := 0, valence := 0, popularity := 2 },
        { name := "x", url := "u3", energy := 0, valence := 0, popularity := 3 }]
         : List Cand).findIdx
          (fun u => u.name ==
            (([{ name := "x", url := "u1", energy := 0, valence := 0, popularity := 1 },
               { name := "y", url := "u2", energy := 0, valence := 0, popularity := 2 },
               { name := "x", url := "u3", energy := 0, valence := 0, popularity := 3 }]
                : List Cand).get ⟨0, by decide⟩).name) ≤ 0 :=
  dedup_keeps_first_occurrence
    [{ name := "x", url := "u1", energy := 0, valence := 0, popularity := 1 },
     { name := "y", url := "u2", energy := 0, valence := 0, popularity := 2 },
     { name := "x", url := "u3", energy := 0, valence := 0, popularity := 3 }]
    0 2 (by decide) (by decide) (by decide) rfl

end Vibesbot
